import Mathlib

/-!
Shallow embedding of the AI-Workout-Counter repetition-counting engine
(repository `ashino615/AI-Workout-Counter`, directory `myproject2-taro`).

The per-exercise counters are translated from the Python sources:
`models/pull_up_counter.py`, `models/push_up_counter.py`,
`models/squat_counter.py`, `models/armcurl_counter.py`,
`models/workout_counter.py`, with constants from `config.py`.

Machine floats are idealised as elements of a linear ordered field;
the state machines are defined generically so that they can be run on `ℚ`
(for concrete executions) and on `ℝ` (for the trigonometric angle pipeline).
-/

namespace AIWorkout

/-- `xs.drop (xs.length - n)`: the last `n` elements of `xs` (all of `xs` when
`xs` is shorter).  Used to model `list[-n:]` slices. -/
def lastN {α : Type} (n : ℕ) (xs : List α) : List α :=
  xs.drop (xs.length - n)

/-- Appending to a `collections.deque(maxlen := n)`: append the element, then
keep only the `n` most recent entries (oldest first in the list). -/
def dequeAppend {α : Type} (n : ℕ) (xs : List α) (x : α) : List α :=
  lastN n (xs ++ [x])

theorem lastN_length {α : Type} (n : ℕ) (xs : List α) :
    (lastN n xs).length = min n xs.length := by
  simp [lastN]
  omega

theorem dequeAppend_length {α : Type} (n : ℕ) (xs : List α) (x : α) :
    (dequeAppend n xs x).length = min n (xs.length + 1) := by
  simp [dequeAppend, lastN_length]

/-- One detected keypoint: x-coordinate, y-coordinate, confidence. -/
structure KP (α : Type) where
  x : α
  y : α
  c : α

/-- A keypoint frame, addressed by YOLO joint index (17-point layout). -/
def Kps (α : Type) : Type := ℕ → KP α

/-! ## Pull-up counter (`models/pull_up_counter.py`)

Constants from `config.py`: `movement_threshold = 4`,
`min_consecutive_frames = 3`, `rep_cooldown = 0.5`, `min_confidence = 0.3`,
`min_movement_range = 15`. -/

/-- A confirmed movement direction (the values of `current_direction`). -/
inductive PDir where
  | up
  | down
  | stable
  deriving DecidableEq

/-- The user-facing position labels stored in `self.position`. -/
inductive PPos where
  | neutral
  | pullingUp
  | loweringDown
  | stable
  deriving DecidableEq

/-- The second component of `PullUpCounter.analyze_pose`'s return value. -/
inductive POut where
  | noPerson
  | lowConfidence
  | pos : PPos → POut
  deriving DecidableEq

/-- The mutable state of `PullUpCounter`. -/
structure PullUp (α : Type) where
  count : ℕ
  frame_count : ℕ
  position : PPos
  position_history : List α
  direction_history : List (PDir × α × α)
  last_rep_time : α
  current_direction : PDir
  consecutive_up_frames : α
  consecutive_down_frames : α

/-- `PullUpCounter.__init__` / the state produced by `reset()`. -/
def pullupInit {α : Type} [LinearOrderedField α] : PullUp α :=
  { count := 0
    frame_count := 0
    position := PPos.neutral
    position_history := []
    direction_history := []
    last_rep_time := 0
    current_direction := PDir.stable
    consecutive_up_frames := 0
    consecutive_down_frames := 0 }

/-- `PullUpCounter.reset`. -/
def pullup_reset {α : Type} [LinearOrderedField α] (_ : PullUp α) : PullUp α :=
  pullupInit

/-- Instantaneous direction classification of the 5-sample movement trend
(`movement > movement_threshold` → up, `< -movement_threshold` → down). -/
def classifyMovement {α : Type} [LinearOrderedField α] (movement : α) :
    Option PDir :=
  if movement > 4 then some PDir.up
  else if movement < -4 then some PDir.down
  else none

/-- The consecutive-frame counter update of `detect_direction_change`:
a matching direction increments its own counter and zeroes the opposite one;
otherwise (no clear direction) each positive counter decays by 0.5, floored
at zero. -/
def pullup_consec_update {α : Type} [LinearOrderedField α]
    (cu cd : α) : Option PDir → α × α
  | some PDir.up => (cu + 1, 0)
  | some PDir.down => (0, cd + 1)
  | _ =>
    (if cu > 0 then max 0 (cu - 1/2) else cu,
     if cd > 0 then max 0 (cd - 1/2) else cd)

/-- The confirmation step of `detect_direction_change`: a direction is
confirmed once its consecutive counter reaches `min_consecutive_frames = 3`;
with both counters at 0 the confirmed direction reverts to stable; otherwise
the previous confirmed direction is kept. -/
def pullup_confirm {α : Type} [LinearOrderedField α]
    (cu cd : α) (current : PDir) : PDir :=
  if cu ≥ 3 then PDir.up
  else if cd ≥ 3 then PDir.down
  else if cu = 0 ∧ cd = 0 then PDir.stable
  else current

/-- `PullUpCounter.detect_direction_change`.  Returns the updated state, the
direction to report (`none` encodes the `"starting"` return while fewer than 5
samples are buffered, `some d` the confirmed direction), and `abs(movement)`.
The wall-clock reading `time.time()` is passed in as `now`. -/
def detect_direction_change {α : Type} [LinearOrderedField α]
    (s : PullUp α) (current_diff now : α) : PullUp α × Option PDir × α :=
  let hist := dequeAppend 30 s.position_history current_diff
  let s0 := { s with position_history := hist }
  if hist.length < 5 then (s0, none, 0)
  else
    let recent := lastN 5 hist
    let movement := recent.getLastD 0 - recent.headD 0
    let newdir := classifyMovement movement
    let cc := pullup_consec_update s0.consecutive_up_frames
      s0.consecutive_down_frames newdir
    let confirmed : PDir := pullup_confirm cc.1 cc.2 s0.current_direction
    let s1 := { s0 with consecutive_up_frames := cc.1,
                        consecutive_down_frames := cc.2 }
    if confirmed ≠ s1.current_direction then
      ({ s1 with
          direction_history :=
            dequeAppend 10 s1.direction_history (confirmed, now, current_diff)
          current_direction := confirmed },
       some confirmed, |movement|)
    else
      (s1, some confirmed, |movement|)

/-- The wrist-minus-shoulder vertical displacement computed by
`PullUpCounter.analyze_pose` (joints 5/6 shoulders, 9/10 wrists). -/
def pullup_diff {α : Type} [LinearOrderedField α] (k : Kps α) : α :=
  ((k 9).y + (k 10).y) / 2 - ((k 5).y + (k 6).y) / 2

/-- `PullUpCounter.analyze_pose`.  `kps = none` models `keypoints is None`
or an empty keypoint array; `now` is the `time.time()` reading.
Returns the new state together with `(count, label)`. -/
def pullup_analyze_pose {α : Type} [LinearOrderedField α]
    (s : PullUp α) (now : α) (kps : Option (Kps α)) :
    PullUp α × ℕ × POut :=
  match kps with
  | none => (s, s.count, POut.noPerson)
  | some k =>
    let minConf := min (min (k 5).c (k 6).c) (min (k 9).c (k 10).c)
    if minConf < 3/10 then (s, s.count, POut.lowConfidence)
    else
      let diff := pullup_diff k
      let det := detect_direction_change s diff now
      let s1 := det.1
      let dir := det.2.1
      let s2 :=
        if now - s1.last_rep_time > 1/2 then
          if s1.direction_history.length ≥ 2 then
            match lastN 2 s1.direction_history with
            | [(d1, _, diff1), (d2, _, diff2)] =>
              if d1 = PDir.down ∧ d2 = PDir.up ∧ |diff2 - diff1| > 15 then
                { s1 with count := s1.count + 1
                          last_rep_time := now
                          direction_history := [] }
              else s1
            | _ => s1
          else s1
        else s1
      let p : PPos :=
        match dir with
        | some PDir.up => PPos.pullingUp
        | some PDir.down => PPos.loweringDown
        | _ => PPos.stable
      let s3 := { s2 with position := p }
      (s3, s3.count, POut.pos p)

/-- Fold `pullup_analyze_pose` over a list of `(time, frame)` inputs. -/
def pullup_run {α : Type} [LinearOrderedField α]
    (s : PullUp α) : List (α × Option (Kps α)) → PullUp α
  | [] => s
  | (t, k) :: rest => pullup_run (pullup_analyze_pose s t k).1 rest

/-! ## Joint-angle geometry

`calculate_angle` as written identically in `push_up_counter.py`,
`squat_counter.py` and (with an extra range filter) `armcurl_counter.py`:
the angle at vertex `b` between rays `b→a` and `b→c`, in degrees, or `none`
when either vector's norm falls below `1e-6`. -/

/-- Euclidean norm of the vector from `q` to `p`. -/
noncomputable def vnorm (p q : ℝ × ℝ) : ℝ :=
  Real.sqrt ((p.1 - q.1) ^ 2 + (p.2 - q.2) ^ 2)

/-- `calculate_angle(a, b, c)` (push-up and squat counters). -/
noncomputable def calculate_angle (a b c : ℝ × ℝ) : Option ℝ :=
  if vnorm a b < 1e-6 ∨ vnorm c b < 1e-6 then none
  else
    let cosine := ((a.1 - b.1) * (c.1 - b.1) + (a.2 - b.2) * (c.2 - b.2)) /
      (vnorm a b * vnorm c b)
    let clamped := max (-1) (min 1 cosine)
    some (Real.arccos clamped * 180 / Real.pi)

/-- `ArmCurlCounter.calculate_angle`: same computation, plus the final
`return angle if 0 <= angle <= 180 else None` filter. -/
noncomputable def armcurl_calculate_angle (a b c : ℝ × ℝ) : Option ℝ :=
  match calculate_angle a b c with
  | none => none
  | some angle => if 0 ≤ angle ∧ angle ≤ 180 then some angle else none

/-- Project a keypoint to its 2D position. -/
def pt {α : Type} (j : KP α) : α × α := (j.x, j.y)

/-! ## Push-up counter (`models/push_up_counter.py`)

Hard-coded constants: `UP_ANGLE_THRESHOLD = 135`, `DOWN_ANGLE_THRESHOLD = 105`,
`MIN_CONFIDENCE = 0.3`, `MIN_FRAMES_IN_STATE = 2`, `angle_history`
maxlen `3`. -/

/-- `PushUpState` (the `TRANSITION` member is declared but never entered). -/
inductive PUState where
  | up
  | down
  | transition
  deriving DecidableEq

/-- The mutable state of `PushUpCounter`. -/
structure PushUp (α : Type) where
  count : ℕ
  frame_count : ℕ
  state : PUState
  last_state_change : ℕ
  angle_history : List α
  went_down : Bool

/-- `PushUpCounter.__init__` / the state produced by `reset()`. -/
def pushupInit {α : Type} [LinearOrderedField α] : PushUp α :=
  { count := 0
    frame_count := 0
    state := PUState.up
    last_state_change := 0
    angle_history := []
    went_down := false }

/-- `PushUpCounter.reset`. -/
def pushup_reset {α : Type} [LinearOrderedField α] (_ : PushUp α) : PushUp α :=
  pushupInit

/-- `PushUpCounter.smooth_angle` on a non-`None` angle: append to the
3-deep history, then average the last two samples once at least two are
present; with a single sample return it raw. -/
def pushup_smooth_angle {α : Type} [LinearOrderedField α]
    (hist : List α) (angle : α) : List α × α :=
  let hist1 := dequeAppend 3 hist angle
  if 2 ≤ hist1.length then (hist1, (lastN 2 hist1).sum / 2)
  else (hist1, angle)

/-- `PushUpCounter.update_state_and_count` (with `_change_state` inlined;
a transition always targets a different state, so `last_state_change` is
stamped on every transition). -/
def pushup_update_state_and_count {α : Type} [LinearOrderedField α]
    (s : PushUp α) (angle : α) : PushUp α :=
  if s.frame_count - s.last_state_change < 2 then s
  else
    match s.state with
    | PUState.up =>
      if angle < 105 then
        { s with state := PUState.down
                 last_state_change := s.frame_count
                 went_down := true }
      else s
    | PUState.down =>
      if angle > 135 then
        if s.went_down then
          { s with state := PUState.up
                   last_state_change := s.frame_count
                   count := s.count + 1
                   went_down := false }
        else
          { s with state := PUState.up
                   last_state_change := s.frame_count }
      else s
    | PUState.transition => s

/-- One `analyze_pose` call on a frame that already passed the confidence and
validity gates, fed directly with the working angle: frame counting, then
smoothing, then the state machine.  Returns the new state and the smoothed
angle that was reported. -/
def pushup_step_angle {α : Type} [LinearOrderedField α]
    (s : PushUp α) (angle : α) : PushUp α × α :=
  let s1 := { s with frame_count := s.frame_count + 1 }
  let sm := pushup_smooth_angle s1.angle_history angle
  let s2 := { s1 with angle_history := sm.1 }
  (pushup_update_state_and_count s2 sm.2, sm.2)

/-- Trace of `pushup_step_angle` over an angle sequence: the list of
(state-after-frame, smoothed-angle) pairs, one per frame. -/
def pushup_trace {α : Type} [LinearOrderedField α]
    (s : PushUp α) : List α → List (PushUp α × α)
  | [] => []
  | a :: rest =>
    let st := pushup_step_angle s a
    st :: pushup_trace st.1 rest

/-- Mean confidence of the right-arm triple (joints 6, 8, 10). -/
noncomputable def pushup_r_conf (k : Kps ℝ) : ℝ :=
  ((k 6).c + (k 8).c + (k 10).c) / 3

/-- Mean confidence of the left-arm triple (joints 5, 7, 9). -/
noncomputable def pushup_l_conf (k : Kps ℝ) : ℝ :=
  ((k 5).c + (k 7).c + (k 9).c) / 3

/-- The right-arm elbow angle, computed only when the right-arm confidence
reaches `MIN_CONFIDENCE` (0.3). -/
noncomputable def pushup_r_angle (k : Kps ℝ) : Option ℝ :=
  if pushup_r_conf k ≥ 3/10 then
    calculate_angle (pt (k 6)) (pt (k 8)) (pt (k 10))
  else none

/-- The left-arm elbow angle, computed only when the left-arm confidence
reaches `MIN_CONFIDENCE` (0.3). -/
noncomputable def pushup_l_angle (k : Kps ℝ) : Option ℝ :=
  if pushup_l_conf k ≥ 3/10 then
    calculate_angle (pt (k 5)) (pt (k 7)) (pt (k 9))
  else none

/-- `PushUpCounter.get_best_arm_angle`. -/
noncomputable def pushup_get_best_arm_angle (k : Kps ℝ) : Option ℝ × ℝ :=
  match pushup_r_angle k, pushup_l_angle k with
  | some ra, some la =>
    if |pushup_r_conf k - pushup_l_conf k| < 1/10 then
      (some ((ra + la) / 2), (pushup_r_conf k + pushup_l_conf k) / 2)
    else if pushup_r_conf k > pushup_l_conf k then (some ra, pushup_r_conf k)
    else (some la, pushup_l_conf k)
  | some ra, none => (some ra, pushup_r_conf k)
  | none, some la => (some la, pushup_l_conf k)
  | none, none => (none, 0)

/-- `PushUpCounter.analyze_pose`.  `kps = none` models `keypoints is None`
or an empty keypoint array.  Returns the new state and `(count, smoothed)`. -/
noncomputable def pushup_analyze_pose (s : PushUp ℝ) (kps : Option (Kps ℝ)) :
    PushUp ℝ × ℕ × Option ℝ :=
  let s1 := { s with frame_count := s.frame_count + 1 }
  match kps with
  | none => (s1, s1.count, none)
  | some k =>
    let best := pushup_get_best_arm_angle k
    match best.1 with
    | none => (s1, s1.count, none)
    | some angle =>
      if best.2 < 3/10 then (s1, s1.count, none)
      else
        let sm := pushup_smooth_angle s1.angle_history angle
        let s2 := { s1 with angle_history := sm.1 }
        let s3 := pushup_update_state_and_count s2 sm.2
        (s3, s3.count, some sm.2)

/-! ## Squat counter (`models/squat_counter.py`)

Thresholds `squat_up = 170`, `squat_down = 140` (the `config` defaults of the
`getattr` calls), confidence floor `0.3`, `min_frames_in_state = 2`,
`angle_history` maxlen `3`. -/

/-- The two squat states (`"up"` standing, `"down"` squatting). -/
inductive SqState where
  | up
  | down
  deriving DecidableEq

/-- The mutable state of `SquatCounter`. -/
structure Squat (α : Type) where
  count : ℕ
  frame_count : ℕ
  state : SqState
  angle_history : List α
  went_down : Bool
  last_state_change : ℕ

/-- `SquatCounter.__init__` / the state produced by `reset()`. -/
def squatInit {α : Type} [LinearOrderedField α] : Squat α :=
  { count := 0
    frame_count := 0
    state := SqState.up
    angle_history := []
    went_down := false
    last_state_change := 0 }

/-- `SquatCounter.reset`. -/
def squat_reset {α : Type} [LinearOrderedField α] (_ : Squat α) : Squat α :=
  squatInit

/-- Mean confidence of the right-leg triple (joints 12, 14, 16). -/
noncomputable def squat_r_conf (k : Kps ℝ) : ℝ :=
  ((k 12).c + (k 14).c + (k 16).c) / 3

/-- Mean confidence of the left-leg triple (joints 11, 13, 15). -/
noncomputable def squat_l_conf (k : Kps ℝ) : ℝ :=
  ((k 11).c + (k 13).c + (k 15).c) / 3

/-- Right knee angle (hip–knee–ankle). -/
noncomputable def squat_r_angle (k : Kps ℝ) : Option ℝ :=
  calculate_angle (pt (k 12)) (pt (k 14)) (pt (k 16))

/-- Left knee angle (hip–knee–ankle). -/
noncomputable def squat_l_angle (k : Kps ℝ) : Option ℝ :=
  calculate_angle (pt (k 11)) (pt (k 13)) (pt (k 15))

/-- `SquatCounter.get_best_leg_angle`.  In the both-confident branch the
Python code evaluates `abs(r_angle - l_angle)` on the raw angle values, so a
`None` angle there raises `TypeError`, which the surrounding `except` turns
into `(None, 0)`. -/
noncomputable def squat_get_best_leg_angle (k : Kps ℝ) : Option ℝ × ℝ :=
  if squat_r_conf k ≥ 3/10 ∧ squat_l_conf k ≥ 3/10 then
    match squat_r_angle k, squat_l_angle k with
    | some ra, some la =>
      if |ra - la| < 30 then (some ((ra + la) / 2), (squat_r_conf k + squat_l_conf k) / 2)
      else (some (if squat_r_conf k ≥ squat_l_conf k then ra else la),
            max (squat_r_conf k) (squat_l_conf k))
    | _, _ => (none, 0)
  else if squat_r_conf k ≥ 3/10 then (squat_r_angle k, squat_r_conf k)
  else if squat_l_conf k ≥ 3/10 then (squat_l_angle k, squat_l_conf k)
  else (none, 0)

/-- `SquatCounter.analyze_pose`. -/
noncomputable def squat_analyze_pose (s : Squat ℝ) (kps : Option (Kps ℝ)) :
    Squat ℝ × ℕ × Option ℝ :=
  let s1 := { s with frame_count := s.frame_count + 1 }
  match kps with
  | none => (s1, s1.count, none)
  | some k =>
    let best := squat_get_best_leg_angle k
    match best.1 with
    | none => (s1, s1.count, none)
    | some angle =>
      if best.2 < 3/10 then (s1, s1.count, none)
      else
        let hist1 := dequeAppend 3 s1.angle_history angle
        let avg := if 2 ≤ hist1.length then (lastN 2 hist1).sum / 2 else angle
        let s2 := { s1 with angle_history := hist1 }
        if s2.frame_count - s2.last_state_change < 2 then (s2, s2.count, some avg)
        else
          match s2.state with
          | SqState.up =>
            if avg < 140 then
              ({ s2 with state := SqState.down
                         went_down := true
                         last_state_change := s2.frame_count },
               s2.count, some avg)
            else (s2, s2.count, some avg)
          | SqState.down =>
            if avg > 170 then
              if s2.went_down then
                ({ s2 with state := SqState.up
                           last_state_change := s2.frame_count
                           count := s2.count + 1
                           went_down := false },
                 s2.count + 1, some avg)
              else
                ({ s2 with state := SqState.up
                           last_state_change := s2.frame_count },
                 s2.count, some avg)
            else (s2, s2.count, some avg)

/-! ## Arm-curl counter (`models/armcurl_counter.py`)

Thresholds `armcurl_up = 90`, `armcurl_down = 120` (the `getattr` defaults),
confidence floor `0.5`, `angle_history` maxlen `5`.  `analyze_pose` never
touches `frame_count`. -/

/-- Arm-curl states (`"up"` curled, `"down"` extended). -/
inductive ACState where
  | up
  | down
  deriving DecidableEq

/-- The side label returned by `ArmCurlCounter.get_best_arm_angle`. -/
inductive ACSide where
  | rightArm
  | leftArm
  | noArm
  deriving DecidableEq

/-- The mutable state of `ArmCurlCounter`. -/
structure ArmCurl (α : Type) where
  count : ℕ
  frame_count : ℕ
  state : ACState
  angle_history : List α

/-- `ArmCurlCounter.__init__` / the state produced by `reset()`. -/
def armcurlInit {α : Type} [LinearOrderedField α] : ArmCurl α :=
  { count := 0
    frame_count := 0
    state := ACState.down
    angle_history := [] }

/-- `ArmCurlCounter.reset`. -/
def armcurl_reset {α : Type} [LinearOrderedField α] (_ : ArmCurl α) :
    ArmCurl α :=
  armcurlInit

/-- Mean confidence of the right-arm triple (joints 6, 8, 10). -/
noncomputable def armcurl_r_conf (k : Kps ℝ) : ℝ :=
  ((k 6).c + (k 8).c + (k 10).c) / 3

/-- Mean confidence of the left-arm triple (joints 5, 7, 9). -/
noncomputable def armcurl_l_conf (k : Kps ℝ) : ℝ :=
  ((k 5).c + (k 7).c + (k 9).c) / 3

/-- Right elbow angle (shoulder–elbow–wrist), with the arm-curl range
filter. -/
noncomputable def armcurl_r_angle (k : Kps ℝ) : Option ℝ :=
  armcurl_calculate_angle (pt (k 6)) (pt (k 8)) (pt (k 10))

/-- Left elbow angle (shoulder–elbow–wrist), with the arm-curl range
filter. -/
noncomputable def armcurl_l_angle (k : Kps ℝ) : Option ℝ :=
  armcurl_calculate_angle (pt (k 5)) (pt (k 7)) (pt (k 9))

/-- `ArmCurlCounter.get_best_arm_angle`: both angles are computed with no
confidence gating; when both are valid the side with the higher confidence
wins (ties to the right arm) — the two angles are never averaged. -/
noncomputable def armcurl_get_best_arm_angle (k : Kps ℝ) :
    Option ℝ × ℝ × ACSide :=
  match armcurl_r_angle k, armcurl_l_angle k with
  | some ra, some la =>
    if armcurl_r_conf k ≥ armcurl_l_conf k then
      (some ra, armcurl_r_conf k, ACSide.rightArm)
    else (some la, armcurl_l_conf k, ACSide.leftArm)
  | some ra, none => (some ra, armcurl_r_conf k, ACSide.rightArm)
  | none, some la => (some la, armcurl_l_conf k, ACSide.leftArm)
  | none, none => (none, 0, ACSide.noArm)

/-- `ArmCurlCounter.analyze_pose`. -/
noncomputable def armcurl_analyze_pose (s : ArmCurl ℝ) (kps : Option (Kps ℝ)) :
    ArmCurl ℝ × ℕ × Option ℝ :=
  match kps with
  | none => (s, s.count, none)
  | some k =>
    let best := armcurl_get_best_arm_angle k
    match best.1 with
    | none => (s, s.count, none)
    | some angle =>
      if best.2.1 < 1/2 then (s, s.count, none)
      else
        let hist1 := dequeAppend 5 s.angle_history angle
        let s1 := { s with angle_history := hist1 }
        if hist1.length = 5 then
          let avg := hist1.sum / 5
          if avg < 90 ∧ s1.state = ACState.down then
            ({ s1 with state := ACState.up }, s1.count, some avg)
          else if avg > 120 ∧ s1.state = ACState.up then
            ({ s1 with count := s1.count + 1, state := ACState.down },
             s1.count + 1, some avg)
          else (s1, s1.count, some avg)
        else (s1, s1.count, some angle)

/-! ## Workout coordinator (`models/workout_counter.py`) -/

/-- The polymorphic active counter held by `WorkoutCounter`. -/
inductive Counter where
  | pullupC : PullUp ℝ → Counter
  | pushupC : PushUp ℝ → Counter
  | squatC : Squat ℝ → Counter
  | armcurlC : ArmCurl ℝ → Counter

/-- The unified result of an `analyze_pose` delegation. -/
inductive WOut where
  | angleOut : Option ℝ → WOut
  | posOut : POut → WOut

/-- `counter.count` read through the polymorphic interface. -/
def Counter.countOf : Counter → ℕ
  | Counter.pullupC s => s.count
  | Counter.pushupC s => s.count
  | Counter.squatC s => s.count
  | Counter.armcurlC s => s.count

/-- `counter.frame_count` read through the polymorphic interface. -/
def Counter.frameCountOf : Counter → ℕ
  | Counter.pullupC s => s.frame_count
  | Counter.pushupC s => s.frame_count
  | Counter.squatC s => s.frame_count
  | Counter.armcurlC s => s.frame_count

/-- `counter.frame_count += 1` through the polymorphic interface. -/
def Counter.bumpFrame : Counter → Counter
  | Counter.pullupC s => Counter.pullupC { s with frame_count := s.frame_count + 1 }
  | Counter.pushupC s => Counter.pushupC { s with frame_count := s.frame_count + 1 }
  | Counter.squatC s => Counter.squatC { s with frame_count := s.frame_count + 1 }
  | Counter.armcurlC s => Counter.armcurlC { s with frame_count := s.frame_count + 1 }

/-- The `WorkoutCounter` session object. -/
structure WorkoutCounter where
  mode : String
  counter : Counter
  frame_count : ℕ

/-- `WorkoutCounter._initialize_counter`: a fresh counter for the requested
mode, together with the mode string the object ends up holding (an unknown
mode falls back to a fresh pull-up counter and mode `"chinup"`). -/
noncomputable def initializeCounter (mode : String) : Counter × String :=
  if mode = "chinup" then (Counter.pullupC pullupInit, mode)
  else if mode = "pullup" then (Counter.pullupC pullupInit, mode)
  else if mode = "pushup" then (Counter.pushupC pushupInit, mode)
  else if mode = "squat" then (Counter.squatC squatInit, mode)
  else if mode = "armcurl" then (Counter.armcurlC armcurlInit, mode)
  else (Counter.pullupC pullupInit, "chinup")

/-- `WorkoutCounter.switch_mode`: a no-op when the mode is unchanged,
otherwise a fresh counter replaces the old one and the cumulative frame
count is zeroed. -/
noncomputable def switch_mode (w : WorkoutCounter) (new_mode : String) : WorkoutCounter :=
  if new_mode ≠ w.mode then
    let init := initializeCounter new_mode
    { mode := init.2, counter := init.1, frame_count := 0 }
  else w

/-- `WorkoutCounter.update`: bump the active counter's `frame_count`, copy it
into the session's cumulative count, then delegate to `analyze_pose`
(`now` is the wall clock read by the pull-up counter). -/
noncomputable def wc_update (w : WorkoutCounter) (now : ℝ)
    (kps : Option (Kps ℝ)) : WorkoutCounter × ℕ × WOut :=
  let c1 := w.counter.bumpFrame
  let w1 := { w with counter := c1, frame_count := c1.frameCountOf }
  match c1 with
  | Counter.pullupC s =>
    let r := pullup_analyze_pose s now kps
    ({ w1 with counter := Counter.pullupC r.1 }, r.2.1, WOut.posOut r.2.2)
  | Counter.pushupC s =>
    let r := pushup_analyze_pose s kps
    ({ w1 with counter := Counter.pushupC r.1 }, r.2.1, WOut.angleOut r.2.2)
  | Counter.squatC s =>
    let r := squat_analyze_pose s kps
    ({ w1 with counter := Counter.squatC r.1 }, r.2.1, WOut.angleOut r.2.2)
  | Counter.armcurlC s =>
    let r := armcurl_analyze_pose s kps
    ({ w1 with counter := Counter.armcurlC r.1 }, r.2.1, WOut.angleOut r.2.2)

/-! ## Theorems -/

/-- C9: for all points `a`, `b`, `c` with both vectors `b→a` and `b→c` of
magnitude at least `1e-6`, `calculate_angle` returns a value in `[0, 180]`
degrees; it is symmetric, `angle(a,b,c) = angle(c,b,a)`; and when either
vector's magnitude is below `1e-6` (in particular when `a = b` or `c = b`)
it returns `none` instead of a number. -/
theorem C9_angle_range_symm_degenerate :
    (∀ a b c : ℝ × ℝ, 1e-6 ≤ vnorm a b → 1e-6 ≤ vnorm c b →
      ∃ θ, calculate_angle a b c = some θ ∧ 0 ≤ θ ∧ θ ≤ 180) ∧
    (∀ a b c : ℝ × ℝ, calculate_angle a b c = calculate_angle c b a) ∧
    (∀ a b c : ℝ × ℝ, vnorm a b < 1e-6 ∨ vnorm c b < 1e-6 →
      calculate_angle a b c = none) := by
  refine ⟨?_, ?_, ?_⟩
  · intro a b c h1 h2
    have hno : ¬(vnorm a b < 1e-6 ∨ vnorm c b < 1e-6) := by
      push_neg
      exact ⟨h1, h2⟩
    refine ⟨_, by rw [calculate_angle, if_neg hno], ?_, ?_⟩
    · have h0 := Real.arccos_nonneg
        (max (-1) (min 1 (((a.1 - b.1) * (c.1 - b.1) + (a.2 - b.2) * (c.2 - b.2)) /
          (vnorm a b * vnorm c b))))
      positivity
    · have hle := Real.arccos_le_pi
        (max (-1) (min 1 (((a.1 - b.1) * (c.1 - b.1) + (a.2 - b.2) * (c.2 - b.2)) /
          (vnorm a b * vnorm c b))))
      rw [div_le_iff₀ Real.pi_pos]
      nlinarith [Real.pi_pos]
  · intro a b c
    by_cases h : vnorm a b < 1e-6 ∨ vnorm c b < 1e-6
    · rw [calculate_angle, if_pos h, calculate_angle, if_pos (Or.symm h)]
    · rw [calculate_angle, if_neg h, calculate_angle,
        if_neg (fun hx => h (Or.symm hx))]
      have hcos : ((a.1 - b.1) * (c.1 - b.1) + (a.2 - b.2) * (c.2 - b.2)) /
          (vnorm a b * vnorm c b) =
          ((c.1 - b.1) * (a.1 - b.1) + (c.2 - b.2) * (a.2 - b.2)) /
          (vnorm c b * vnorm a b) := by
        ring
      simp only [hcos]
  · intro a b c h
    rw [calculate_angle, if_pos h]

/-- Witness for C9 at concrete points: the right angle at the origin between
`(1,0)` and `(0,1)` is a genuine in-range angle, and coincident points give
`none`. -/
theorem C9_witness :
    (∃ θ, calculate_angle (1, 0) (0, 0) (0, 1) = some θ ∧ 0 ≤ θ ∧ θ ≤ 180) ∧
    calculate_angle (0, 0) (0, 0) (1, 1) = none := by
  constructor
  · exact C9_angle_range_symm_degenerate.1 (1, 0) (0, 0) (0, 1)
      (by rw [vnorm]; norm_num)
      (by rw [vnorm]; norm_num)
  · exact C9_angle_range_symm_degenerate.2.2 (0, 0) (0, 0) (1, 1)
      (Or.inl (by rw [vnorm]; norm_num))

/-! ### C2: the synthetic push-up sequence -/

/-- The synthetic angle sequence of the spec, one sample per frame. -/
def c2_angles : List ℚ := [170, 170, 170, 100, 100, 100, 170, 170, 170]

/-- The push-up trace on the synthetic sequence, starting from the initial
state. -/
def c2_trace : List (PushUp ℚ × ℚ) := pushup_trace pushupInit c2_angles

/-- The per-frame smoothed angles of the synthetic run. -/
def c2_smoothed : List ℚ := c2_trace.map fun p => p.2

/-- C2: feeding the angle sequence [170,170,170,100,100,100,170,170,170] into
the push-up counter (dwell 2, thresholds up 135 / down 105) yields final
count exactly 1; the state trace stays UP through frame 4 and first becomes
DOWN on frame 5 (so no earlier than frame 4); and the count increments on
frame 8, which is exactly the first frame whose smoothed angle exceeds 135
after some earlier frame's smoothed angle was below 105. -/
theorem C2_pushup_synthetic_run :
    (c2_trace.map fun p => p.1.count) = [0, 0, 0, 0, 0, 0, 0, 1, 1] ∧
    (c2_trace.map fun p => p.1.state) =
      [PUState.up, PUState.up, PUState.up, PUState.up, PUState.down,
       PUState.down, PUState.down, PUState.up, PUState.up] ∧
    c2_smoothed = [170, 170, 170, 135, 100, 100, 135, 170, 170] ∧
    (∀ p ∈ c2_trace.take 4, p.1.state ≠ PUState.down) ∧
    (c2_smoothed.getD 7 0 > 135 ∧ ∃ m < 7, c2_smoothed.getD m 0 < 105) ∧
    (∀ i < 7, ¬(c2_smoothed.getD i 0 > 135 ∧ ∃ m < i, c2_smoothed.getD m 0 < 105)) := by
  have hsm : c2_smoothed = [170, 170, 170, 135, 100, 100, 135, 170, 170] := by
    norm_num [c2_smoothed, c2_trace, c2_angles, pushup_trace, pushup_step_angle,
      pushup_smooth_angle, pushup_update_state_and_count, pushupInit,
      dequeAppend, lastN]
  refine ⟨?_, ?_, hsm, ?_, ⟨?_, 4, ?_, ?_⟩, ?_⟩
  · norm_num [c2_trace, c2_angles, pushup_trace, pushup_step_angle,
      pushup_smooth_angle, pushup_update_state_and_count, pushupInit,
      dequeAppend, lastN]
  · norm_num [c2_trace, c2_angles, pushup_trace, pushup_step_angle,
      pushup_smooth_angle, pushup_update_state_and_count, pushupInit,
      dequeAppend, lastN]
  · norm_num [c2_trace, c2_angles, pushup_trace, pushup_step_angle,
      pushup_smooth_angle, pushup_update_state_and_count, pushupInit,
      dequeAppend, lastN]
    all_goals decide
  · rw [hsm]
    norm_num
  · norm_num
  · rw [hsm]
    norm_num
  · intro i hi
    rw [hsm]
    interval_cases i <;> norm_num
    intro x hx
    interval_cases x <;> norm_num

/-! ### C1: counts never decrease; reset gives 0 -/

theorem pushup_update_count_le {α : Type} [LinearOrderedField α]
    (s : PushUp α) (a : α) :
    s.count ≤ (pushup_update_state_and_count s a).count := by
  unfold pushup_update_state_and_count
  repeat' split
  all_goals first
    | exact le_refl _
    | simp

theorem pushup_analyze_count_le (s : PushUp ℝ) (kps : Option (Kps ℝ)) :
    s.count ≤ (pushup_analyze_pose s kps).1.count := by
  cases kps with
  | none => simp [pushup_analyze_pose]
  | some k =>
    simp only [pushup_analyze_pose]
    repeat' split
    all_goals dsimp only
    all_goals first
      | simp
      | (refine le_of_eq_of_le ?_ (pushup_update_count_le _ _); rfl)

theorem squat_analyze_count_le (s : Squat ℝ) (kps : Option (Kps ℝ)) :
    s.count ≤ (squat_analyze_pose s kps).1.count := by
  cases kps with
  | none => simp [squat_analyze_pose]
  | some k =>
    simp only [squat_analyze_pose]
    repeat' split
    all_goals simp

theorem armcurl_analyze_count_le (s : ArmCurl ℝ) (kps : Option (Kps ℝ)) :
    s.count ≤ (armcurl_analyze_pose s kps).1.count := by
  cases kps with
  | none => simp [armcurl_analyze_pose]
  | some k =>
    simp only [armcurl_analyze_pose]
    repeat' split
    all_goals simp

theorem pullup_detect_count_eq {α : Type} [LinearOrderedField α]
    (s : PullUp α) (d now : α) :
    (detect_direction_change s d now).1.count = s.count := by
  simp only [detect_direction_change]
  repeat' split
  all_goals simp

theorem pullup_analyze_count_le {α : Type} [LinearOrderedField α]
    (s : PullUp α) (now : α) (kps : Option (Kps α)) :
    s.count ≤ (pullup_analyze_pose s now kps).1.count := by
  cases kps with
  | none => simp [pullup_analyze_pose]
  | some k =>
    simp only [pullup_analyze_pose]
    have hdet := pullup_detect_count_eq s (pullup_diff k) now
    repeat' split
    all_goals simp [hdet]

/-- C1: for every exercise counter (pull-up, push-up, squat, arm-curl) and
every `analyze_pose` input, the repetition count never decreases across a
call, and immediately after `reset()` the count is exactly 0. -/
theorem C1_count_monotone_and_reset_zero :
    (∀ (s : PullUp ℝ) (now : ℝ) (kps : Option (Kps ℝ)),
      s.count ≤ (pullup_analyze_pose s now kps).1.count) ∧
    (∀ s : PullUp ℝ, (pullup_reset s).count = 0) ∧
    (∀ (s : PushUp ℝ) (kps : Option (Kps ℝ)),
      s.count ≤ (pushup_analyze_pose s kps).1.count) ∧
    (∀ s : PushUp ℝ, (pushup_reset s).count = 0) ∧
    (∀ (s : Squat ℝ) (kps : Option (Kps ℝ)),
      s.count ≤ (squat_analyze_pose s kps).1.count) ∧
    (∀ s : Squat ℝ, (squat_reset s).count = 0) ∧
    (∀ (s : ArmCurl ℝ) (kps : Option (Kps ℝ)),
      s.count ≤ (armcurl_analyze_pose s kps).1.count) ∧
    (∀ s : ArmCurl ℝ, (armcurl_reset s).count = 0) :=
  ⟨fun s now kps => pullup_analyze_count_le s now kps,
   fun _ => rfl,
   fun s kps => pushup_analyze_count_le s kps,
   fun _ => rfl,
   fun s kps => squat_analyze_count_le s kps,
   fun _ => rfl,
   fun s kps => armcurl_analyze_count_le s kps,
   fun _ => rfl⟩

/-! ### C10: frame_count increments per WorkoutCounter.update -/

/-- Whether the active counter is the push-up or the squat implementation. -/
def Counter.isAngleDoubleBump : Counter → Prop
  | Counter.pushupC _ => True
  | Counter.squatC _ => True
  | _ => False

/-- Whether the active counter is the pull-up or the arm-curl implementation. -/
def Counter.isSingleBump : Counter → Prop
  | Counter.pullupC _ => True
  | Counter.armcurlC _ => True
  | _ => False

theorem pushup_analyze_frame_count (s : PushUp ℝ) (kps : Option (Kps ℝ)) :
    (pushup_analyze_pose s kps).1.frame_count = s.frame_count + 1 := by
  cases kps with
  | none => simp [pushup_analyze_pose]
  | some k =>
    simp only [pushup_analyze_pose]
    have hupd : ∀ (t : PushUp ℝ) (a : ℝ),
        (pushup_update_state_and_count t a).frame_count = t.frame_count := by
      intro t a
      unfold pushup_update_state_and_count
      repeat' split
      all_goals simp
    repeat' split
    all_goals simp [hupd]

theorem squat_analyze_frame_count (s : Squat ℝ) (kps : Option (Kps ℝ)) :
    (squat_analyze_pose s kps).1.frame_count = s.frame_count + 1 := by
  cases kps with
  | none => simp [squat_analyze_pose]
  | some k =>
    simp only [squat_analyze_pose]
    repeat' split
    all_goals simp

theorem armcurl_analyze_frame_count (s : ArmCurl ℝ) (kps : Option (Kps ℝ)) :
    (armcurl_analyze_pose s kps).1.frame_count = s.frame_count := by
  cases kps with
  | none => simp [armcurl_analyze_pose]
  | some k =>
    simp only [armcurl_analyze_pose]
    repeat' split
    all_goals simp

theorem pullup_analyze_frame_count {α : Type} [LinearOrderedField α]
    (s : PullUp α) (now : α) (kps : Option (Kps α)) :
    (pullup_analyze_pose s now kps).1.frame_count = s.frame_count := by
  cases kps with
  | none => simp [pullup_analyze_pose]
  | some k =>
    simp only [pullup_analyze_pose]
    have hdet : (detect_direction_change s (pullup_diff k) now).1.frame_count =
        s.frame_count := by
      simp only [detect_direction_change]
      repeat' split
      all_goals simp
    repeat' split
    all_goals simp [hdet]

/-- C10: a `WorkoutCounter.update` call increases the active counter's
`frame_count` by exactly 2 when the push-up or squat counter is active
(`update` bumps it once and the counter's `analyze_pose` bumps it again),
and by exactly 1 when the pull-up or arm-curl counter is active. -/
theorem C10_update_frame_count_increment (w : WorkoutCounter) (now : ℝ)
    (kps : Option (Kps ℝ)) :
    (w.counter.isAngleDoubleBump →
      (wc_update w now kps).1.counter.frameCountOf =
        w.counter.frameCountOf + 2) ∧
    (w.counter.isSingleBump →
      (wc_update w now kps).1.counter.frameCountOf =
        w.counter.frameCountOf + 1) := by
  cases hc : w.counter with
  | pullupC s =>
    refine ⟨fun h => absurd h (by simp [hc, Counter.isAngleDoubleBump]), fun _ => ?_⟩
    simp [wc_update, hc, Counter.bumpFrame, Counter.frameCountOf,
      pullup_analyze_frame_count]
  | pushupC s =>
    refine ⟨fun _ => ?_, fun h => absurd h (by simp [hc, Counter.isSingleBump])⟩
    simp [wc_update, hc, Counter.bumpFrame, Counter.frameCountOf,
      pushup_analyze_frame_count]
  | squatC s =>
    refine ⟨fun _ => ?_, fun h => absurd h (by simp [hc, Counter.isSingleBump])⟩
    simp [wc_update, hc, Counter.bumpFrame, Counter.frameCountOf,
      squat_analyze_frame_count]
  | armcurlC s =>
    refine ⟨fun h => absurd h (by simp [hc, Counter.isAngleDoubleBump]), fun _ => ?_⟩
    simp [wc_update, hc, Counter.bumpFrame, Counter.frameCountOf,
      armcurl_analyze_frame_count]

/-- Witness for C10: a fresh push-up session gains 2 frames on one update,
a fresh pull-up session gains 1. -/
theorem C10_witness :
    (wc_update ⟨"pushup", Counter.pushupC pushupInit, 0⟩ 0 none).1.counter.frameCountOf =
      (Counter.pushupC pushupInit).frameCountOf + 2 ∧
    (wc_update ⟨"chinup", Counter.pullupC pullupInit, 0⟩ 0 none).1.counter.frameCountOf =
      (Counter.pullupC pullupInit).frameCountOf + 1 :=
  ⟨(C10_update_frame_count_increment ⟨"pushup", Counter.pushupC pushupInit, 0⟩ 0 none).1
      trivial,
   (C10_update_frame_count_increment ⟨"chinup", Counter.pullupC pullupInit, 0⟩ 0 none).2
      trivial⟩

/-! ### C8: switch_mode constructs a fresh counter -/

/-- `counter.count` is 0 and every smoothing/history buffer and bookkeeping
field holds its constructor-initial value. -/
def Counter.isFreshInit : Counter → Prop
  | Counter.pullupC s =>
      s.count = 0 ∧ s.frame_count = 0 ∧ s.position_history = [] ∧
      s.direction_history = [] ∧ s.consecutive_up_frames = 0 ∧
      s.consecutive_down_frames = 0 ∧ s.current_direction = PDir.stable ∧
      s.last_rep_time = 0
  | Counter.pushupC s =>
      s.count = 0 ∧ s.frame_count = 0 ∧ s.angle_history = [] ∧
      s.state = PUState.up ∧ s.went_down = false ∧ s.last_state_change = 0
  | Counter.squatC s =>
      s.count = 0 ∧ s.frame_count = 0 ∧ s.angle_history = [] ∧
      s.state = SqState.up ∧ s.went_down = false ∧ s.last_state_change = 0
  | Counter.armcurlC s =>
      s.count = 0 ∧ s.frame_count = 0 ∧ s.angle_history = [] ∧
      s.state = ACState.down

/-- C8: switching a `WorkoutCounter` to a different exercise mode yields a
counter that is exactly the fresh counter constructed for the new mode (no
state transfer from the discarded one), with count 0, initial
smoothing/history state, and a zeroed cumulative frame count. -/
theorem C8_switch_mode_fresh_counter (w : WorkoutCounter) (new_mode : String)
    (h : new_mode ≠ w.mode) :
    (switch_mode w new_mode).counter = (initializeCounter new_mode).1 ∧
    (switch_mode w new_mode).counter.countOf = 0 ∧
    (switch_mode w new_mode).counter.isFreshInit ∧
    (switch_mode w new_mode).frame_count = 0 := by
  simp only [switch_mode, if_pos h]
  refine ⟨by trivial, ?_, ?_, by trivial⟩ <;>
  · unfold initializeCounter
    repeat' split
    all_goals simp [Counter.countOf, Counter.isFreshInit, pullupInit,
      pushupInit, squatInit, armcurlInit]

/-- Witness for C8: switching a mid-session push-up counter (5 frames in) to
squat mode yields the fresh squat counter with zero count and frame count. -/
theorem C8_witness :
    (switch_mode ⟨"pushup", Counter.pushupC pushupInit, 5⟩ "squat").counter =
      (initializeCounter "squat").1 ∧
    (switch_mode ⟨"pushup", Counter.pushupC pushupInit, 5⟩ "squat").counter.countOf = 0 ∧
    (switch_mode ⟨"pushup", Counter.pushupC pushupInit, 5⟩ "squat").counter.isFreshInit ∧
    (switch_mode ⟨"pushup", Counter.pushupC pushupInit, 5⟩ "squat").frame_count = 0 :=
  C8_switch_mode_fresh_counter ⟨"pushup", Counter.pushupC pushupInit, 5⟩ "squat"
    (by decide)

/-! ### C3: consecutive-frame confirmation mechanics -/

/-- The movement value a `detect_direction_change` call classifies: last of
the 5 most recent buffered displacements minus the first of them. -/
def pullup_movement {α : Type} [LinearOrderedField α]
    (s : PullUp α) (d : α) : α :=
  (lastN 5 (dequeAppend 30 s.position_history d)).getLastD 0 -
    (lastN 5 (dequeAppend 30 s.position_history d)).headD 0

/-- C3: in the motion counter, on frames past the 5-sample startup window:
a frame classified UP increments the up counter and zeroes the down counter
(dually for DOWN); a STABLE frame decays both counters by 0.5, floored at
zero; both counters stay non-negative; the confirmed direction changes only
when the matching counter has reached `min_consecutive_frames = 3`, or
reverts to STABLE when both counters are 0; otherwise the previous confirmed
direction is kept. -/
theorem detect_fields {α : Type} [LinearOrderedField α]
    (s : PullUp α) (d now : α) (hlen : 4 ≤ s.position_history.length) :
    (detect_direction_change s d now).1.consecutive_up_frames =
      (pullup_consec_update s.consecutive_up_frames s.consecutive_down_frames
        (classifyMovement (pullup_movement s d))).1 ∧
    (detect_direction_change s d now).1.consecutive_down_frames =
      (pullup_consec_update s.consecutive_up_frames s.consecutive_down_frames
        (classifyMovement (pullup_movement s d))).2 ∧
    (detect_direction_change s d now).1.current_direction =
      pullup_confirm
        (pullup_consec_update s.consecutive_up_frames s.consecutive_down_frames
          (classifyMovement (pullup_movement s d))).1
        (pullup_consec_update s.consecutive_up_frames s.consecutive_down_frames
          (classifyMovement (pullup_movement s d))).2
        s.current_direction := by
  have hlen5 : ¬ (dequeAppend 30 s.position_history d).length < 5 := by
    rw [dequeAppend_length]
    omega
  simp only [detect_direction_change, if_neg hlen5, pullup_movement]
  split
  · exact ⟨rfl, rfl, rfl⟩
  · refine ⟨rfl, rfl, ?_⟩
    rename_i hne
    rw [not_not] at hne
    exact hne.symm

theorem consec_update_nonneg {α : Type} [LinearOrderedField α]
    (cu cd : α) (dir : Option PDir)
    (hcu : 0 ≤ cu) (hcd : 0 ≤ cd) :
    0 ≤ (pullup_consec_update cu cd dir).1 ∧
    0 ≤ (pullup_consec_update cu cd dir).2 := by
  rcases dir with _ | dd
  · dsimp only [pullup_consec_update]
    constructor
    · split
      · exact le_max_left 0 _
      · exact hcu
    · split
      · exact le_max_left 0 _
      · exact hcd
  · cases dd
    · exact ⟨by dsimp only [pullup_consec_update]; linarith,
        by dsimp only [pullup_consec_update]; exact le_refl 0⟩
    · exact ⟨by dsimp only [pullup_consec_update]; exact le_refl 0,
        by dsimp only [pullup_consec_update]; linarith⟩
    · dsimp only [pullup_consec_update]
      constructor
      · split
        · exact le_max_left 0 _
        · exact hcu
      · split
        · exact le_max_left 0 _
        · exact hcd

/-- C3: in the motion counter, on frames past the 5-sample startup window:
a frame classified UP increments the up counter and zeroes the down counter
(dually for DOWN); a STABLE frame decays both counters by 0.5, floored at
zero; both counters stay non-negative; and the confirmed direction changes
only when the matching counter has reached `min_consecutive_frames = 3`, or
reverts to STABLE when both counters are 0 — otherwise the previous
confirmed direction is kept. -/
theorem C3_confirmation_counters (α : Type) [LinearOrderedField α]
    (s : PullUp α) (d now : α)
    (hcu : 0 ≤ s.consecutive_up_frames) (hcd : 0 ≤ s.consecutive_down_frames)
    (hlen : 4 ≤ s.position_history.length) :
    (classifyMovement (pullup_movement s d) = some PDir.up →
      (detect_direction_change s d now).1.consecutive_up_frames =
        s.consecutive_up_frames + 1 ∧
      (detect_direction_change s d now).1.consecutive_down_frames = 0) ∧
    (classifyMovement (pullup_movement s d) = some PDir.down →
      (detect_direction_change s d now).1.consecutive_down_frames =
        s.consecutive_down_frames + 1 ∧
      (detect_direction_change s d now).1.consecutive_up_frames = 0) ∧
    (classifyMovement (pullup_movement s d) = none →
      (detect_direction_change s d now).1.consecutive_up_frames =
        max 0 (s.consecutive_up_frames - 1/2) ∧
      (detect_direction_change s d now).1.consecutive_down_frames =
        max 0 (s.consecutive_down_frames - 1/2)) ∧
    0 ≤ (detect_direction_change s d now).1.consecutive_up_frames ∧
    0 ≤ (detect_direction_change s d now).1.consecutive_down_frames ∧
    ((detect_direction_change s d now).1.current_direction ≠
        s.current_direction →
      (3 ≤ (detect_direction_change s d now).1.consecutive_up_frames ∧
        (detect_direction_change s d now).1.current_direction = PDir.up) ∨
      (3 ≤ (detect_direction_change s d now).1.consecutive_down_frames ∧
        (detect_direction_change s d now).1.current_direction = PDir.down) ∨
      ((detect_direction_change s d now).1.consecutive_up_frames = 0 ∧
        (detect_direction_change s d now).1.consecutive_down_frames = 0 ∧
        (detect_direction_change s d now).1.current_direction =
          PDir.stable)) := by
  obtain ⟨h1, h2, h3⟩ := detect_fields s d now hlen
  rw [h1, h2, h3]
  refine ⟨?_, ?_, ?_, ?_, ?_, ?_⟩
  · intro hcls
    rw [hcls]
    exact ⟨rfl, rfl⟩
  · intro hcls
    rw [hcls]
    exact ⟨rfl, rfl⟩
  · intro hcls
    rw [hcls]
    dsimp only [pullup_consec_update]
    constructor
    · split
      · rfl
      · rename_i hle
        have h0 : s.consecutive_up_frames = 0 := le_antisymm (not_lt.mp hle) hcu
        rw [h0, max_eq_left (by linarith)]
    · split
      · rfl
      · rename_i hle
        have h0 : s.consecutive_down_frames = 0 := le_antisymm (not_lt.mp hle) hcd
        rw [h0, max_eq_left (by linarith)]
  · exact (consec_update_nonneg _ _ _ hcu hcd).1
  · exact (consec_update_nonneg _ _ _ hcu hcd).2
  · intro hchg
    unfold pullup_confirm at hchg ⊢
    split_ifs at hchg ⊢ with hu hd hz
    · exact Or.inl ⟨hu, rfl⟩
    · exact Or.inr (Or.inl ⟨hd, rfl⟩)
    · exact Or.inr (Or.inr ⟨hz.1, hz.2, rfl⟩)
    · exact absurd rfl hchg

/-- Witness for C3: a concrete state with four buffered samples, a positive
up-counter and a rising displacement: the frame classifies UP, the up counter
increments to 2, the down counter zeroes, and counters stay non-negative. -/
theorem C3_witness :
    (detect_direction_change
      { count := 0, frame_count := 0, position := PPos.stable,
        position_history := [(0 : ℚ), 0, 0, 0], direction_history := [],
        last_rep_time := 0, current_direction := PDir.stable,
        consecutive_up_frames := 1, consecutive_down_frames := 0 } 10
        99).1.consecutive_up_frames = 1 + 1 ∧
    (detect_direction_change
      { count := 0, frame_count := 0, position := PPos.stable,
        position_history := [(0 : ℚ), 0, 0, 0], direction_history := [],
        last_rep_time := 0, current_direction := PDir.stable,
        consecutive_up_frames := 1, consecutive_down_frames := 0 } 10
        99).1.consecutive_down_frames = 0 ∧
    0 ≤ (detect_direction_change
      { count := 0, frame_count := 0, position := PPos.stable,
        position_history := [(0 : ℚ), 0, 0, 0], direction_history := [],
        last_rep_time := 0, current_direction := PDir.stable,
        consecutive_up_frames := 1, consecutive_down_frames := 0 } 10
        99).1.consecutive_up_frames := by
  have h := C3_confirmation_counters ℚ
    { count := 0, frame_count := 0, position := PPos.stable,
      position_history := [(0 : ℚ), 0, 0, 0], direction_history := [],
      last_rep_time := 0, current_direction := PDir.stable,
      consecutive_up_frames := 1, consecutive_down_frames := 0 } 10 99
    (by norm_num) (by norm_num) (by norm_num)
  have hcls : classifyMovement (pullup_movement
      { count := 0, frame_count := 0, position := PPos.stable,
        position_history := [(0 : ℚ), 0, 0, 0], direction_history := [],
        last_rep_time := 0, current_direction := PDir.stable,
        consecutive_up_frames := 1, consecutive_down_frames := 0 } 10) =
      some PDir.up := by
    norm_num [classifyMovement, pullup_movement, dequeAppend, lastN]
  exact ⟨(h.1 hcls).1, (h.1 hcls).2, h.2.2.2.1⟩

/-! ### C4: rep counting gates (cooldown, DOWN→UP pair, range, clearing) -/

/-- This `analyze_pose` call increments the repetition count. -/
def pullup_increments {α : Type} [LinearOrderedField α]
    (s : PullUp α) (now : α) (kps : Option (Kps α)) : Prop :=
  s.count < (pullup_analyze_pose s now kps).1.count

theorem pullup_detect_lrt_eq {α : Type} [LinearOrderedField α]
    (s : PullUp α) (d now : α) :
    (detect_direction_change s d now).1.last_rep_time = s.last_rep_time := by
  simp only [detect_direction_change]
  repeat' split
  all_goals simp

/-- Each `analyze_pose` call either leaves count and last-rep-time unchanged,
or performs a gated increment: cooldown elapsed, the two most recent
direction-change log entries are exactly (DOWN, UP) with displacement range
above `min_movement_range = 15`, the count rises by one, the last-rep time is
stamped with `now`, and the change log is cleared. -/
theorem pullup_step_dichotomy {α : Type} [LinearOrderedField α]
    (s : PullUp α) (now : α) (kps : Option (Kps α)) :
    ((pullup_analyze_pose s now kps).1.count = s.count ∧
     (pullup_analyze_pose s now kps).1.last_rep_time = s.last_rep_time) ∨
    (now - s.last_rep_time > 1/2 ∧
     (pullup_analyze_pose s now kps).1.count = s.count + 1 ∧
     (pullup_analyze_pose s now kps).1.last_rep_time = now ∧
     (pullup_analyze_pose s now kps).1.direction_history = [] ∧
     ∃ k, kps = some k ∧ ∃ t1 t2 d1 d2,
       lastN 2 (detect_direction_change s (pullup_diff k) now).1.direction_history
         = [(PDir.down, t1, d1), (PDir.up, t2, d2)] ∧ |d2 - d1| > 15) := by
  cases kps with
  | none => exact Or.inl ⟨rfl, rfl⟩
  | some k =>
    have hc := pullup_detect_count_eq s (pullup_diff k) now
    have hl := pullup_detect_lrt_eq s (pullup_diff k) now
    by_cases hconf : ((k 5).c < 3/10 ∨ (k 6).c < 3/10) ∨
        (k 9).c < 3/10 ∨ (k 10).c < 3/10
    · exact Or.inl ⟨by simp [pullup_analyze_pose, hconf],
        by simp [pullup_analyze_pose, hconf]⟩
    by_cases hcool :
        now - (detect_direction_change s (pullup_diff k) now).1.last_rep_time > 1/2
    · by_cases hlen2 :
          (detect_direction_change s (pullup_diff k) now).1.direction_history.length ≥ 2
      · rcases hls : lastN 2
            (detect_direction_change s (pullup_diff k) now).1.direction_history with
          _ | ⟨⟨dd1, tt1, df1⟩, _ | ⟨⟨dd2, tt2, df2⟩, _ | ⟨e3, rest⟩⟩⟩
        · refine Or.inl ⟨?_, ?_⟩ <;>
            simp [pullup_analyze_pose, hconf, hcool, hlen2, hls, hc, hl]
        · refine Or.inl ⟨?_, ?_⟩ <;>
            simp [pullup_analyze_pose, hconf, hcool, hlen2, hls, hc, hl]
        · by_cases hcond : dd1 = PDir.down ∧ dd2 = PDir.up ∧ |df2 - df1| > 15
          · obtain ⟨h1, h2, h3⟩ := hcond
            subst h1
            subst h2
            have hcool2 : (2 : α)⁻¹ <
                now - (detect_direction_change s (pullup_diff k) now).1.last_rep_time := by
              rw [inv_eq_one_div]
              exact hcool
            refine Or.inr ⟨by rwa [hl] at hcool, ?_, ?_, ?_, k, rfl,
              tt1, tt2, df1, df2, hls, h3⟩
            · simp [pullup_analyze_pose, hconf, hcool2, hlen2, hls, h3, hc]
            · simp [pullup_analyze_pose, hconf, hcool2, hlen2, hls, h3]
            · simp [pullup_analyze_pose, hconf, hcool2, hlen2, hls, h3]
          · refine Or.inl ⟨?_, ?_⟩ <;>
              simp [pullup_analyze_pose, hconf, hcool, hlen2, hls, hcond, hc, hl]
        · refine Or.inl ⟨?_, ?_⟩ <;>
            simp [pullup_analyze_pose, hconf, hcool, hlen2, hls, hc, hl]
      · refine Or.inl ⟨?_, ?_⟩ <;>
          simp [pullup_analyze_pose, hconf, hcool, hlen2, hc, hl]
    · have hcool2 : ¬ ((2 : α)⁻¹ < now - s.last_rep_time) := by
        rw [inv_eq_one_div, ← hl]
        exact hcool
      refine Or.inl ⟨?_, ?_⟩ <;>
        simp [pullup_analyze_pose, hconf, hcool2, hc, hl]

theorem pullup_run_lrt_ge {α : Type} [LinearOrderedField α] (T : α) :
    ∀ (inputs : List (α × Option (Kps α))) (s : PullUp α),
      T ≤ s.last_rep_time → (∀ p ∈ inputs, T ≤ p.1) →
      T ≤ (pullup_run s inputs).last_rep_time := by
  intro inputs
  induction inputs with
  | nil => intro s hs _; exact hs
  | cons p rest ih =>
    intro s hs hin
    rcases p with ⟨t, k⟩
    have hstep : T ≤ (pullup_analyze_pose s t k).1.last_rep_time := by
      rcases pullup_step_dichotomy s t k with ⟨_, h⟩ | ⟨_, _, h, _⟩
      · rw [h]; exact hs
      · rw [h]; exact hin (t, k) (List.mem_cons_self _ _)
    exact ih (pullup_analyze_pose s t k).1 hstep
      (fun q hq => hin q (List.mem_cons_of_mem _ hq))

/-- C4: the motion counter increments only when the cooldown has elapsed and
the last two confirmed-direction-change entries are exactly (DOWN, UP) with
displacement range above `min_movement_range`; an increment adds exactly 1,
stamps the last-rep time with `now` and clears the change log; consequently
two increments are always separated by more than `rep_cooldown = 0.5`
seconds, provided times do not decrease. -/
theorem C4_rep_gating (α : Type) [LinearOrderedField α] :
    (∀ (s : PullUp α) (now : α) (kps : Option (Kps α)),
      pullup_increments s now kps →
        now - s.last_rep_time > 1/2 ∧
        (pullup_analyze_pose s now kps).1.count = s.count + 1 ∧
        (pullup_analyze_pose s now kps).1.last_rep_time = now ∧
        (pullup_analyze_pose s now kps).1.direction_history = [] ∧
        ∃ k, kps = some k ∧ ∃ t1 t2 d1 d2,
          lastN 2 (detect_direction_change s (pullup_diff k) now).1.direction_history
            = [(PDir.down, t1, d1), (PDir.up, t2, d2)] ∧ |d2 - d1| > 15) ∧
    (∀ (s : PullUp α) (t1 : α) (k1 : Option (Kps α))
        (mid : List (α × Option (Kps α))) (t2 : α) (k2 : Option (Kps α)),
      pullup_increments s t1 k1 →
      (∀ p ∈ mid, t1 ≤ p.1) →
      pullup_increments (pullup_run (pullup_analyze_pose s t1 k1).1 mid) t2 k2 →
      t2 - t1 > 1/2) := by
  have step1 : ∀ (s : PullUp α) (now : α) (kps : Option (Kps α)),
      pullup_increments s now kps →
        now - s.last_rep_time > 1/2 ∧
        (pullup_analyze_pose s now kps).1.count = s.count + 1 ∧
        (pullup_analyze_pose s now kps).1.last_rep_time = now ∧
        (pullup_analyze_pose s now kps).1.direction_history = [] ∧
        ∃ k, kps = some k ∧ ∃ t1 t2 d1 d2,
          lastN 2 (detect_direction_change s (pullup_diff k) now).1.direction_history
            = [(PDir.down, t1, d1), (PDir.up, t2, d2)] ∧ |d2 - d1| > 15 := by
    intro s now kps hinc
    rcases pullup_step_dichotomy s now kps with ⟨hcnt, _⟩ | h
    · exact absurd hinc (by simp [pullup_increments, hcnt])
    · exact h
  refine ⟨step1, ?_⟩
  intro s t1 k1 mid t2 k2 h1 hmid h2
  have hstamp := (step1 s t1 k1 h1).2.2.1
  have hlrt : t1 ≤ (pullup_run (pullup_analyze_pose s t1 k1).1 mid).last_rep_time :=
    pullup_run_lrt_ge t1 mid (pullup_analyze_pose s t1 k1).1 (le_of_eq hstamp.symm) hmid
  have hcool := (step1 _ t2 k2 h2).1
  linarith

/-- A frame with both wrists at height `d`, shoulders at height 0, and all
confidences 1. -/
def wsFrame (d : ℚ) : Kps ℚ := fun i =>
  if i = 9 ∨ i = 10 then ⟨0, d, 1⟩ else ⟨0, 0, 1⟩

/-- A pull-up state about to complete a rep: five buffered samples after the
next frame, a (DOWN, UP) change-log pair with range 40, cooldown long
elapsed. -/
def c4_s0 : PullUp ℚ :=
  { count := 0, frame_count := 0, position := PPos.stable,
    position_history := [0, 0, 0, 0],
    direction_history := [(PDir.down, 0, 50), (PDir.up, 1, 90)],
    last_rep_time := 0, current_direction := PDir.stable,
    consecutive_up_frames := 0, consecutive_down_frames := 0 }

/-- Intermediate frames tracing a full lowering-then-raising cycle. -/
def c4_mid : List (ℚ × Option (Kps ℚ)) :=
  [(11, some (wsFrame (-10))), (12, some (wsFrame (-20))),
   (13, some (wsFrame (-30))), (14, some (wsFrame (-20))),
   (15, some (wsFrame 0)), (16, some (wsFrame 20))]

/-- The pull-up state after frame 1 of the C4 witness trace. -/
def c4_t1 : PullUp ℚ :=
  { count := 1, frame_count := 0, position := PPos.stable,
    position_history := [0, 0, 0, 0, 0],
    direction_history := [],
    last_rep_time := 10, current_direction := PDir.stable,
    consecutive_up_frames := 0, consecutive_down_frames := 0 }

/-- The pull-up state after frame 2 of the C4 witness trace. -/
def c4_t2 : PullUp ℚ :=
  { count := 1, frame_count := 0, position := PPos.stable,
    position_history := [0, 0, 0, 0, 0, -10],
    direction_history := [],
    last_rep_time := 10, current_direction := PDir.stable,
    consecutive_up_frames := 0, consecutive_down_frames := 1 }

/-- The pull-up state after frame 3 of the C4 witness trace. -/
def c4_t3 : PullUp ℚ :=
  { count := 1, frame_count := 0, position := PPos.stable,
    position_history := [0, 0, 0, 0, 0, -10, -20],
    direction_history := [],
    last_rep_time := 10, current_direction := PDir.stable,
    consecutive_up_frames := 0, consecutive_down_frames := 2 }

/-- The pull-up state after frame 4 of the C4 witness trace. -/
def c4_t4 : PullUp ℚ :=
  { count := 1, frame_count := 0, position := PPos.loweringDown,
    position_history := [0, 0, 0, 0, 0, -10, -20, -30],
    direction_history := [(PDir.down, 13, -30)],
    last_rep_time := 10, current_direction := PDir.down,
    consecutive_up_frames := 0, consecutive_down_frames := 3 }

/-- The pull-up state after frame 5 of the C4 witness trace. -/
def c4_t5 : PullUp ℚ :=
  { count := 1, frame_count := 0, position := PPos.loweringDown,
    position_history := [0, 0, 0, 0, 0, -10, -20, -30, -20],
    direction_history := [(PDir.down, 13, -30)],
    last_rep_time := 10, current_direction := PDir.down,
    consecutive_up_frames := 0, consecutive_down_frames := 4 }

/-- The pull-up state after frame 6 of the C4 witness trace. -/
def c4_t6 : PullUp ℚ :=
  { count := 1, frame_count := 0, position := PPos.loweringDown,
    position_history := [0, 0, 0, 0, 0, -10, -20, -30, -20, 0],
    direction_history := [(PDir.down, 13, -30)],
    last_rep_time := 10, current_direction := PDir.down,
    consecutive_up_frames := 1, consecutive_down_frames := 0 }

/-- The pull-up state after frame 7 of the C4 witness trace. -/
def c4_t7 : PullUp ℚ :=
  { count := 1, frame_count := 0, position := PPos.loweringDown,
    position_history := [0, 0, 0, 0, 0, -10, -20, -30, -20, 0, 20],
    direction_history := [(PDir.down, 13, -30)],
    last_rep_time := 10, current_direction := PDir.down,
    consecutive_up_frames := 2, consecutive_down_frames := 0 }

/-- Witness for C4: a concrete state increments at time 10 (clearing its
change log), and after a full concrete DOWN→UP cycle increments again at
time 20 — more than `rep_cooldown` later. -/
theorem C4_witness :
    (pullup_analyze_pose c4_s0 10 (some (wsFrame 0))).1.direction_history = [] ∧
    (20 : ℚ) - 10 > 1/2 := by
  have hds : PDir.down ≠ PDir.stable := by decide
  have hud : PDir.up ≠ PDir.down := by decide
  have hus : PDir.up ≠ PDir.stable := by decide
  have e1 : (pullup_analyze_pose c4_s0 10 (some (wsFrame (0)))).1 = c4_t1 := by
    norm_num [pullup_analyze_pose, detect_direction_change,
      pullup_consec_update, pullup_confirm, classifyMovement, pullup_diff,
      wsFrame, c4_s0, c4_t1, c4_t2, c4_t3, c4_t4, c4_t5, c4_t6, c4_t7,
      dequeAppend, lastN, hds, hud, hus]
  have e2 : (pullup_analyze_pose c4_t1 11 (some (wsFrame (-10)))).1 = c4_t2 := by
    norm_num [pullup_analyze_pose, detect_direction_change,
      pullup_consec_update, pullup_confirm, classifyMovement, pullup_diff,
      wsFrame, c4_s0, c4_t1, c4_t2, c4_t3, c4_t4, c4_t5, c4_t6, c4_t7,
      dequeAppend, lastN, hds, hud, hus]
  have e3 : (pullup_analyze_pose c4_t2 12 (some (wsFrame (-20)))).1 = c4_t3 := by
    norm_num [pullup_analyze_pose, detect_direction_change,
      pullup_consec_update, pullup_confirm, classifyMovement, pullup_diff,
      wsFrame, c4_s0, c4_t1, c4_t2, c4_t3, c4_t4, c4_t5, c4_t6, c4_t7,
      dequeAppend, lastN, hds, hud, hus]
  have e4 : (pullup_analyze_pose c4_t3 13 (some (wsFrame (-30)))).1 = c4_t4 := by
    norm_num [pullup_analyze_pose, detect_direction_change,
      pullup_consec_update, pullup_confirm, classifyMovement, pullup_diff,
      wsFrame, c4_s0, c4_t1, c4_t2, c4_t3, c4_t4, c4_t5, c4_t6, c4_t7,
      dequeAppend, lastN, hds, hud, hus]
  have e5 : (pullup_analyze_pose c4_t4 14 (some (wsFrame (-20)))).1 = c4_t5 := by
    norm_num [pullup_analyze_pose, detect_direction_change,
      pullup_consec_update, pullup_confirm, classifyMovement, pullup_diff,
      wsFrame, c4_s0, c4_t1, c4_t2, c4_t3, c4_t4, c4_t5, c4_t6, c4_t7,
      dequeAppend, lastN, hds, hud, hus]
  have e6 : (pullup_analyze_pose c4_t5 15 (some (wsFrame (0)))).1 = c4_t6 := by
    norm_num [pullup_analyze_pose, detect_direction_change,
      pullup_consec_update, pullup_confirm, classifyMovement, pullup_diff,
      wsFrame, c4_s0, c4_t1, c4_t2, c4_t3, c4_t4, c4_t5, c4_t6, c4_t7,
      dequeAppend, lastN, hds, hud, hus]
  have e7 : (pullup_analyze_pose c4_t6 16 (some (wsFrame (20)))).1 = c4_t7 := by
    norm_num [pullup_analyze_pose, detect_direction_change,
      pullup_consec_update, pullup_confirm, classifyMovement, pullup_diff,
      wsFrame, c4_s0, c4_t1, c4_t2, c4_t3, c4_t4, c4_t5, c4_t6, c4_t7,
      dequeAppend, lastN, hds, hud, hus]
  have h1 : pullup_increments c4_s0 10 (some (wsFrame 0)) := by
    rw [pullup_increments, e1]
    norm_num [c4_s0, c4_t1]
  have hmid : ∀ p ∈ c4_mid, (10 : ℚ) ≤ p.1 := by
    intro p hp
    simp only [c4_mid, List.mem_cons, List.not_mem_nil, or_false] at hp
    rcases hp with h | h | h | h | h | h <;> rw [h] <;> norm_num
  have hrun : pullup_run (pullup_analyze_pose c4_s0 10 (some (wsFrame 0))).1 c4_mid =
      c4_t7 := by
    rw [e1]
    show pullup_run _ c4_mid = _
    rw [c4_mid]
    simp only [pullup_run]
    rw [e2, e3, e4, e5, e6, e7]
  have h2 : pullup_increments
      (pullup_run (pullup_analyze_pose c4_s0 10 (some (wsFrame 0))).1 c4_mid)
      20 (some (wsFrame 40)) := by
    rw [pullup_increments, hrun]
    norm_num [pullup_analyze_pose, detect_direction_change,
      pullup_consec_update, pullup_confirm, classifyMovement, pullup_diff,
      wsFrame, c4_s0, c4_t1, c4_t2, c4_t3, c4_t4, c4_t5, c4_t6, c4_t7,
      dequeAppend, lastN, hds, hud, hus]
  exact ⟨((C4_rep_gating ℚ).1 c4_s0 10 (some (wsFrame 0)) h1).2.2.2.1,
    (C4_rep_gating ℚ).2 c4_s0 10 (some (wsFrame 0)) c4_mid 20
      (some (wsFrame 40)) h1 hmid h2⟩

/-! ### Concrete angle evaluations used by the C5/C6 inputs -/

theorem calc_angle_right : calculate_angle (1, 0) (0, 0) (0, 1) = some 90 := by
  have h1 : vnorm ((1 : ℝ), 0) (0, 0) = 1 := by
    rw [vnorm]
    norm_num
  have h2 : vnorm ((0 : ℝ), 1) (0, 0) = 1 := by
    rw [vnorm]
    norm_num
  rw [calculate_angle, if_neg]
  · rw [h1, h2]
    norm_num [Real.arccos_zero]
    field_simp
    ring
  · rw [h1, h2]
    norm_num

theorem calc_angle_flat : calculate_angle (1, 0) (0, 0) (-1, 0) = some 180 := by
  have h1 : vnorm ((1 : ℝ), 0) (0, 0) = 1 := by
    rw [vnorm]
    norm_num
  have h2 : vnorm ((-1 : ℝ), 0) (0, 0) = 1 := by
    rw [vnorm]
    norm_num
  rw [calculate_angle, if_neg]
  · rw [h1, h2]
    norm_num [Real.arccos_neg_one]
    field_simp
  · rw [h1, h2]
    norm_num

/-- A keypoint frame whose right arm (joints 6, 8, 10) forms a 90° elbow with
mean confidence 0.6, and whose left arm (joints 5, 7, 9) is fully extended at
180° with mean confidence 0.55. -/
noncomputable def kpC5 : Kps ℝ := fun i =>
  if i = 6 then ⟨1, 0, 6/10⟩
  else if i = 8 then ⟨0, 0, 6/10⟩
  else if i = 10 then ⟨0, 1, 6/10⟩
  else if i = 5 then ⟨1, 0, 55/100⟩
  else if i = 7 then ⟨0, 0, 55/100⟩
  else if i = 9 then ⟨-1, 0, 55/100⟩
  else ⟨0, 0, 0⟩

theorem kpC5_r_angle : armcurl_r_angle kpC5 = some 90 := by
  rw [armcurl_r_angle, armcurl_calculate_angle]
  have : calculate_angle (pt (kpC5 6)) (pt (kpC5 8)) (pt (kpC5 10)) = some 90 := by
    rw [show pt (kpC5 6) = ((1 : ℝ), 0) from rfl,
      show pt (kpC5 8) = ((0 : ℝ), 0) from rfl,
      show pt (kpC5 10) = ((0 : ℝ), 1) from rfl]
    exact calc_angle_right
  rw [this]
  norm_num

theorem kpC5_l_angle : armcurl_l_angle kpC5 = some 180 := by
  rw [armcurl_l_angle, armcurl_calculate_angle]
  have : calculate_angle (pt (kpC5 5)) (pt (kpC5 7)) (pt (kpC5 9)) = some 180 := by
    rw [show pt (kpC5 5) = ((1 : ℝ), 0) from rfl,
      show pt (kpC5 7) = ((0 : ℝ), 0) from rfl,
      show pt (kpC5 9) = ((-1 : ℝ), 0) from rfl]
    exact calc_angle_flat
  rw [this]
  norm_num

theorem kpC5_r_conf : armcurl_r_conf kpC5 = 6/10 := by
  rw [armcurl_r_conf]
  norm_num [kpC5]

theorem kpC5_l_conf : armcurl_l_conf kpC5 = 55/100 := by
  rw [armcurl_l_conf]
  norm_num [kpC5]

/-! ### C5: working-angle selection -/

/-- Counterexample to C5 as stated: on the arm-curl counter, both arms give a
valid angle (90° right, 180° left) and the confidences 0.6 and 0.55 differ by
less than 0.1, yet the working angle is the higher-confidence side's 90°, not
the average 135° — the arm-curl selection never averages. -/
theorem C5_counterexample :
    armcurl_r_angle kpC5 = some 90 ∧
    armcurl_l_angle kpC5 = some 180 ∧
    |armcurl_r_conf kpC5 - armcurl_l_conf kpC5| < 1/10 ∧
    armcurl_get_best_arm_angle kpC5 = (some 90, 6/10, ACSide.rightArm) ∧
    (90 : ℝ) ≠ (90 + 180) / 2 := by
  have hcd : |armcurl_r_conf kpC5 - armcurl_l_conf kpC5| < 1/10 := by
    rw [kpC5_r_conf, kpC5_l_conf]
    rw [abs_of_pos (by norm_num)]
    norm_num
  refine ⟨kpC5_r_angle, kpC5_l_angle, hcd, ?_, by norm_num⟩
  rw [armcurl_get_best_arm_angle, kpC5_r_angle, kpC5_l_angle]
  dsimp only
  rw [if_pos (by rw [kpC5_r_conf, kpC5_l_conf]; norm_num), kpC5_r_conf]

/-- C5 as the code implements it: the push-up counter averages the two sides
exactly when their confidences differ by less than 0.1 and otherwise takes
the strictly-more-confident side; a single valid side is used as is, and two
invalid sides give `(none, 0)`.  The squat counter (both sides confident)
averages exactly when the two *angles* differ by less than 30° and otherwise
takes the more confident side.  The arm-curl counter always takes the
higher-confidence side (ties to the right), never averaging.  An invalid
working angle or one below the exercise's confidence floor yields
`(count, none)` with no state change beyond push-up/squat's unconditional
frame-count increment. -/
theorem C5_selection_per_counter :
    (∀ (k : Kps ℝ) (ra la : ℝ), pushup_r_angle k = some ra →
      pushup_l_angle k = some la →
      (|pushup_r_conf k - pushup_l_conf k| < 1/10 →
        pushup_get_best_arm_angle k =
          (some ((ra + la) / 2), (pushup_r_conf k + pushup_l_conf k) / 2)) ∧
      (¬ |pushup_r_conf k - pushup_l_conf k| < 1/10 →
        pushup_get_best_arm_angle k =
          if pushup_r_conf k > pushup_l_conf k then (some ra, pushup_r_conf k)
          else (some la, pushup_l_conf k))) ∧
    (∀ (k : Kps ℝ) (ra : ℝ), pushup_r_angle k = some ra →
      pushup_l_angle k = none →
      pushup_get_best_arm_angle k = (some ra, pushup_r_conf k)) ∧
    (∀ (k : Kps ℝ) (la : ℝ), pushup_r_angle k = none →
      pushup_l_angle k = some la →
      pushup_get_best_arm_angle k = (some la, pushup_l_conf k)) ∧
    (∀ k : Kps ℝ, pushup_r_angle k = none → pushup_l_angle k = none →
      pushup_get_best_arm_angle k = (none, 0)) ∧
    (∀ (k : Kps ℝ) (ra la : ℝ), armcurl_r_angle k = some ra →
      armcurl_l_angle k = some la →
      armcurl_get_best_arm_angle k =
        if armcurl_r_conf k ≥ armcurl_l_conf k then
          (some ra, armcurl_r_conf k, ACSide.rightArm)
        else (some la, armcurl_l_conf k, ACSide.leftArm)) ∧
    (∀ (k : Kps ℝ) (ra la : ℝ), squat_r_conf k ≥ 3/10 → squat_l_conf k ≥ 3/10 →
      squat_r_angle k = some ra → squat_l_angle k = some la →
      squat_get_best_leg_angle k =
        if |ra - la| < 30 then
          (some ((ra + la) / 2), (squat_r_conf k + squat_l_conf k) / 2)
        else (some (if squat_r_conf k ≥ squat_l_conf k then ra else la),
          max (squat_r_conf k) (squat_l_conf k))) ∧
    (∀ (s : PushUp ℝ) (k : Kps ℝ),
      (pushup_get_best_arm_angle k).1 = none ∨
        (pushup_get_best_arm_angle k).2 < 3/10 →
      pushup_analyze_pose s (some k) =
        ({ s with frame_count := s.frame_count + 1 }, s.count, none)) ∧
    (∀ (s : Squat ℝ) (k : Kps ℝ),
      (squat_get_best_leg_angle k).1 = none ∨
        (squat_get_best_leg_angle k).2 < 3/10 →
      squat_analyze_pose s (some k) =
        ({ s with frame_count := s.frame_count + 1 }, s.count, none)) ∧
    (∀ (s : ArmCurl ℝ) (k : Kps ℝ),
      (armcurl_get_best_arm_angle k).1 = none ∨
        (armcurl_get_best_arm_angle k).2.1 < 1/2 →
      armcurl_analyze_pose s (some k) = (s, s.count, none)) := by
  refine ⟨?_, ?_, ?_, ?_, ?_, ?_, ?_, ?_, ?_⟩
  · intro k ra la hra hla
    constructor
    · intro hlt
      rw [pushup_get_best_arm_angle, hra, hla]
      simp only [if_pos hlt]
    · intro hge
      rw [pushup_get_best_arm_angle, hra, hla]
      simp only [if_neg hge]
  · intro k ra hra hla
    rw [pushup_get_best_arm_angle, hra, hla]
  · intro k la hra hla
    rw [pushup_get_best_arm_angle, hra, hla]
  · intro k hra hla
    rw [pushup_get_best_arm_angle, hra, hla]
  · intro k ra la hra hla
    rw [armcurl_get_best_arm_angle, hra, hla]
  · intro k ra la hrc hlc hra hla
    rw [squat_get_best_leg_angle, if_pos ⟨hrc, hlc⟩, hra, hla]
  · intro s k h
    rcases hb : (pushup_get_best_arm_angle k).1 with _ | a
    · simp [pushup_analyze_pose, hb]
    · rcases h with h | h
      · rw [hb] at h
        exact absurd h (by simp)
      · simp [pushup_analyze_pose, hb, h]
  · intro s k h
    rcases hb : (squat_get_best_leg_angle k).1 with _ | a
    · simp [squat_analyze_pose, hb]
    · rcases h with h | h
      · rw [hb] at h
        exact absurd h (by simp)
      · simp [squat_analyze_pose, hb, h]
  · intro s k h
    rcases hb : (armcurl_get_best_arm_angle k).1 with _ | a
    · simp [armcurl_analyze_pose, hb]
    · rcases h with h | h
      · rw [hb] at h
        exact absurd h (by simp)
      · have h2 : (armcurl_get_best_arm_angle k).2.1 < 2⁻¹ := by
          rw [inv_eq_one_div]
          exact h
        simp [armcurl_analyze_pose, hb, h2]

/-- Witness for C5 (amended): on `kpC5` the push-up counter, whose side
confidences 0.6 and 0.55 differ by less than 0.1, averages 90° and 180° to a
working angle of 135°; and the arm-curl counter on the same frame takes the
right side. -/
theorem C5_witness :
    pushup_get_best_arm_angle kpC5 = (some ((90 + 180) / 2), (6/10 + 55/100) / 2) ∧
    armcurl_get_best_arm_angle kpC5 = (some 90, 6/10, ACSide.rightArm) := by
  have hrc : pushup_r_conf kpC5 = 6/10 := by
    rw [pushup_r_conf]
    norm_num [kpC5]
  have hlc : pushup_l_conf kpC5 = 55/100 := by
    rw [pushup_l_conf]
    norm_num [kpC5]
  have hra : pushup_r_angle kpC5 = some 90 := by
    rw [pushup_r_angle, if_pos (by rw [hrc]; norm_num)]
    rw [show pt (kpC5 6) = ((1 : ℝ), 0) from rfl,
      show pt (kpC5 8) = ((0 : ℝ), 0) from rfl,
      show pt (kpC5 10) = ((0 : ℝ), 1) from rfl]
    exact calc_angle_right
  have hla : pushup_l_angle kpC5 = some 180 := by
    rw [pushup_l_angle, if_pos (by rw [hlc]; norm_num)]
    rw [show pt (kpC5 5) = ((1 : ℝ), 0) from rfl,
      show pt (kpC5 7) = ((0 : ℝ), 0) from rfl,
      show pt (kpC5 9) = ((-1 : ℝ), 0) from rfl]
    exact calc_angle_flat
  constructor
  · have h := (C5_selection_per_counter.1 kpC5 90 180 hra hla).1
      (by rw [hrc, hlc]; rw [abs_of_pos (by norm_num)]; norm_num)
    rw [h, hrc, hlc]
  · have h := C5_selection_per_counter.2.2.2.2.1 kpC5 90 180 kpC5_r_angle kpC5_l_angle
    rw [h, if_pos (by rw [kpC5_r_conf, kpC5_l_conf]; norm_num), kpC5_r_conf]

/-! ### C6: arm-curl smoothing window -/

/-- Counterexample to C6 as stated: the very first valid sample (angle 90°,
confidence 0.6 ≥ 0.5) is analysed while fewer than 5 samples have
accumulated, yet the call reports the raw angle `some 90` — not a Pending
(`none`) output — so the "no usable output until the window is full" part of
the claim is false (the "no state-machine update" part does hold: state and
count are unchanged). -/
theorem C6_counterexample :
    (armcurlInit : ArmCurl ℝ).angle_history.length + 1 < 5 ∧
    (armcurl_analyze_pose armcurlInit (some kpC5)).2 = (0, some 90) ∧
    (armcurl_analyze_pose armcurlInit (some kpC5)).1.state = ACState.down ∧
    (armcurl_analyze_pose armcurlInit (some kpC5)).1.count = 0 ∧
    (some (90 : ℝ) ≠ none) := by
  have hb : armcurl_get_best_arm_angle kpC5 = (some 90, 6/10, ACSide.rightArm) := by
    rw [armcurl_get_best_arm_angle, kpC5_r_angle, kpC5_l_angle]
    dsimp only
    rw [if_pos (by rw [kpC5_r_conf, kpC5_l_conf]; norm_num), kpC5_r_conf]
  refine ⟨by simp [armcurlInit], ?_, ?_, ?_, by simp⟩ <;>
    norm_num [armcurl_analyze_pose, hb, armcurlInit, dequeAppend, lastN]

/-- C6 as the code implements it: while fewer than 5 valid samples have
accumulated, each valid analyze call returns the raw (unsmoothed) angle —
not a Pending output — appends the sample, and performs no state-machine
update (state and count unchanged); once the 5-sample window is full, the
arithmetic mean of the 5 samples is emitted and drives the state machine. -/
theorem C6_armcurl_window_behavior (s : ArmCurl ℝ) (k : Kps ℝ) (a c : ℝ)
    (side : ACSide) (hb : armcurl_get_best_arm_angle k = (some a, c, side))
    (hc : ¬ c < 1/2) :
    (s.angle_history.length < 4 →
      armcurl_analyze_pose s (some k) =
        ({ s with angle_history := s.angle_history ++ [a] }, s.count, some a)) ∧
    (4 ≤ s.angle_history.length →
      (armcurl_analyze_pose s (some k)).2.2 =
        some ((dequeAppend 5 s.angle_history a).sum / 5) ∧
      ((dequeAppend 5 s.angle_history a).sum / 5 < 90 ∧ s.state = ACState.down →
        (armcurl_analyze_pose s (some k)).1.state = ACState.up ∧
        (armcurl_analyze_pose s (some k)).1.count = s.count) ∧
      ((dequeAppend 5 s.angle_history a).sum / 5 > 120 ∧ s.state = ACState.up →
        (armcurl_analyze_pose s (some k)).1.state = ACState.down ∧
        (armcurl_analyze_pose s (some k)).1.count = s.count + 1) ∧
      (¬((dequeAppend 5 s.angle_history a).sum / 5 < 90 ∧ s.state = ACState.down) →
       ¬((dequeAppend 5 s.angle_history a).sum / 5 > 120 ∧ s.state = ACState.up) →
        (armcurl_analyze_pose s (some k)).1.state = s.state ∧
        (armcurl_analyze_pose s (some k)).1.count = s.count)) := by
  have hc2 : ¬ c < 2⁻¹ := by
    rw [inv_eq_one_div]
    exact hc
  constructor
  · intro hlen
    have happ : dequeAppend 5 s.angle_history a = s.angle_history ++ [a] := by
      have h0 : (s.angle_history ++ [a]).length - 5 = 0 := by
        simp
        omega
      rw [dequeAppend, lastN, h0]
      rfl
    have hfull : ¬ s.angle_history.length = 4 := by omega
    have hfull2 : ¬ (s.angle_history.length + 1 = 5) := by omega
    simp [armcurl_analyze_pose, hb, hc2, happ, hfull, hfull2]
  · intro hlen
    have hfull : (dequeAppend 5 s.angle_history a).length = 5 := by
      rw [dequeAppend_length]
      omega
    refine ⟨?_, ?_, ?_, ?_⟩
    · by_cases h1 : (dequeAppend 5 s.angle_history a).sum / 5 < 90 ∧
          s.state = ACState.down
      · simp [armcurl_analyze_pose, hb, hc2, hfull, h1]
      · by_cases h2 : (dequeAppend 5 s.angle_history a).sum / 5 > 120 ∧
            s.state = ACState.up
        · simp [armcurl_analyze_pose, hb, hc2, hfull, h1, h2]
        · simp [armcurl_analyze_pose, hb, hc2, hfull, h1, h2]
    · intro h1
      simp [armcurl_analyze_pose, hb, hc2, hfull, h1]
    · intro h2
      have h1 : ¬ ((dequeAppend 5 s.angle_history a).sum / 5 < 90 ∧
          s.state = ACState.down) := by
        intro h1
        rw [h2.2] at h1
        exact absurd h1.2 (by simp)
      simp [armcurl_analyze_pose, hb, hc2, hfull, h1, h2]
    · intro h1 h2
      simp [armcurl_analyze_pose, hb, hc2, hfull, h1, h2]

/-- Witness for C6 (amended): the first valid sample on a fresh counter is
returned raw and appended; a counter with four 130° samples and state UP
completes a rep when the fifth sample keeps the mean above 120°. -/
theorem C6_witness :
    (armcurl_analyze_pose armcurlInit (some kpC5) =
      ({ (armcurlInit : ArmCurl ℝ) with angle_history := [(90 : ℝ)] }, 0, some 90)) ∧
    ((armcurl_analyze_pose
        { count := 3, frame_count := 0, state := ACState.up,
          angle_history := [130, 130, 130, 130] } (some kpC5)).1.count = 3 + 1) := by
  have hb : armcurl_get_best_arm_angle kpC5 = (some 90, 6/10, ACSide.rightArm) := by
    rw [armcurl_get_best_arm_angle, kpC5_r_angle, kpC5_l_angle]
    dsimp only
    rw [if_pos (by rw [kpC5_r_conf, kpC5_l_conf]; norm_num), kpC5_r_conf]
  have hc : ¬ (6/10 : ℝ) < 1/2 := by norm_num
  constructor
  · have h := (C6_armcurl_window_behavior armcurlInit kpC5 90 (6/10)
      ACSide.rightArm hb hc).1 (by simp [armcurlInit])
    rw [h]
    simp [armcurlInit]
  · have h := ((C6_armcurl_window_behavior
      { count := 3, frame_count := 0, state := ACState.up,
        angle_history := [130, 130, 130, 130] } kpC5 90 (6/10)
      ACSide.rightArm hb hc).2 (by simp)).2.2.1
    have havg : (dequeAppend 5 ([130, 130, 130, 130] : List ℝ) 90).sum / 5 > 120 := by
      rw [dequeAppend, lastN]
      norm_num
    exact (h ⟨havg, rfl⟩).2

/-! ### C7: no-person and low-confidence frames -/

/-- Counterexample to C7 as stated: a no-person frame on the push-up counter
does mutate the counter — `analyze_pose` increments `frame_count` (the dwell
bookkeeping) before the no-person check, so the state is not left completely
unchanged. -/
theorem C7_counterexample :
    (pushup_analyze_pose pushupInit none).1.frame_count =
      (pushupInit : PushUp ℝ).frame_count + 1 ∧
    (pushup_analyze_pose pushupInit none).1 ≠ (pushupInit : PushUp ℝ) := by
  constructor
  · rfl
  · intro h
    have h2 := congrArg PushUp.frame_count h
    simp [pushupInit, pushup_analyze_pose] at h2

theorem armcurl_best_conf_cases (k : Kps ℝ) :
    (armcurl_get_best_arm_angle k).2.1 = armcurl_r_conf k ∨
    (armcurl_get_best_arm_angle k).2.1 = armcurl_l_conf k ∨
    (armcurl_get_best_arm_angle k).2.1 = 0 := by
  rw [armcurl_get_best_arm_angle]
  rcases armcurl_r_angle k with _ | ra <;> rcases armcurl_l_angle k with _ | la <;>
    dsimp only
  · exact Or.inr (Or.inr rfl)
  · exact Or.inr (Or.inl rfl)
  · exact Or.inl rfl
  · split
    · exact Or.inl rfl
    · exact Or.inr (Or.inl rfl)

/-- C7 as the code implements it: no-person frames and all-joints-below-floor
frames return the current count with a sentinel output; for the pull-up and
arm-curl counters they mutate nothing at all, while for the push-up and
squat counters they change exactly the `frame_count` field (incremented by
one), leaving count, state, histories and all other bookkeeping unchanged. -/
theorem C7_sentinel_frames :
    (∀ (s : PullUp ℝ) (now : ℝ),
      pullup_analyze_pose s now none = (s, s.count, POut.noPerson)) ∧
    (∀ (s : PullUp ℝ) (now : ℝ) (k : Kps ℝ),
      (k 5).c < 3/10 → (k 6).c < 3/10 → (k 9).c < 3/10 → (k 10).c < 3/10 →
      pullup_analyze_pose s now (some k) = (s, s.count, POut.lowConfidence)) ∧
    (∀ s : ArmCurl ℝ, armcurl_analyze_pose s none = (s, s.count, none)) ∧
    (∀ (s : ArmCurl ℝ) (k : Kps ℝ),
      (k 5).c < 1/2 → (k 6).c < 1/2 → (k 7).c < 1/2 → (k 8).c < 1/2 →
      (k 9).c < 1/2 → (k 10).c < 1/2 →
      armcurl_analyze_pose s (some k) = (s, s.count, none)) ∧
    (∀ s : PushUp ℝ, pushup_analyze_pose s none =
      ({ s with frame_count := s.frame_count + 1 }, s.count, none)) ∧
    (∀ (s : PushUp ℝ) (k : Kps ℝ),
      (k 5).c < 3/10 → (k 6).c < 3/10 → (k 7).c < 3/10 → (k 8).c < 3/10 →
      (k 9).c < 3/10 → (k 10).c < 3/10 →
      pushup_analyze_pose s (some k) =
        ({ s with frame_count := s.frame_count + 1 }, s.count, none)) ∧
    (∀ s : Squat ℝ, squat_analyze_pose s none =
      ({ s with frame_count := s.frame_count + 1 }, s.count, none)) ∧
    (∀ (s : Squat ℝ) (k : Kps ℝ),
      (k 11).c < 3/10 → (k 12).c < 3/10 → (k 13).c < 3/10 → (k 14).c < 3/10 →
      (k 15).c < 3/10 → (k 16).c < 3/10 →
      squat_analyze_pose s (some k) =
        ({ s with frame_count := s.frame_count + 1 }, s.count, none)) := by
  refine ⟨fun s now => rfl, ?_, fun s => rfl, ?_, fun s => rfl, ?_, fun s => rfl, ?_⟩
  · intro s now k h5 h6 h9 h10
    have hmin : min (min (k 5).c (k 6).c) (min (k 9).c (k 10).c) < 3/10 := by
      rw [min_lt_iff]
      left
      rw [min_lt_iff]
      left
      exact h5
    simp only [pullup_analyze_pose]
    rw [if_pos hmin]
  · intro s k h5 h6 h7 h8 h9 h10
    have hcl : (armcurl_get_best_arm_angle k).2.1 < 2⁻¹ := by
      rcases armcurl_best_conf_cases k with h | h | h <;> rw [h]
      · rw [armcurl_r_conf]
        rw [inv_eq_one_div]
        linarith
      · rw [armcurl_l_conf]
        rw [inv_eq_one_div]
        linarith
      · norm_num
    rcases h1 : (armcurl_get_best_arm_angle k).1 with _ | a
    · simp [armcurl_analyze_pose, h1]
    · simp [armcurl_analyze_pose, h1, hcl]
  · intro s k h5 h6 h7 h8 h9 h10
    have hra : pushup_r_angle k = none := by
      rw [pushup_r_angle, if_neg]
      rw [pushup_r_conf]
      intro hge
      linarith
    have hla : pushup_l_angle k = none := by
      rw [pushup_l_angle, if_neg]
      rw [pushup_l_conf]
      intro hge
      linarith
    have hbest : pushup_get_best_arm_angle k = (none, 0) := by
      rw [pushup_get_best_arm_angle, hra, hla]
    simp [pushup_analyze_pose, hbest]
  · intro s k h11 h12 h13 h14 h15 h16
    have hrc : squat_r_conf k < 3/10 := by
      rw [squat_r_conf]
      linarith
    have hlc : squat_l_conf k < 3/10 := by
      rw [squat_l_conf]
      linarith
    have hbest : squat_get_best_leg_angle k = (none, 0) := by
      rw [squat_get_best_leg_angle, if_neg, if_neg, if_neg]
      · exact not_le.mpr hlc
      · exact not_le.mpr hrc
      · intro hand
        exact absurd hand.1 (not_le.mpr hrc)
    simp [squat_analyze_pose, hbest]

/-- A frame whose joints all carry zero confidence. -/
noncomputable def zeroFrame : Kps ℝ := fun _ => ⟨0, 0, 0⟩

/-- Witness for C7 (amended): on an all-zero-confidence frame the pull-up
counter returns (count, low-confidence) with nothing mutated, and the
push-up counter returns (count, none) with only its frame count bumped. -/
theorem C7_witness :
    pullup_analyze_pose (pullupInit : PullUp ℝ) 0 (some zeroFrame) =
      (pullupInit, (0 : ℕ), POut.lowConfidence) ∧
    pushup_analyze_pose (pushupInit : PushUp ℝ) (some zeroFrame) =
      ({ (pushupInit : PushUp ℝ) with frame_count := 1 }, (0 : ℕ), none) :=
  ⟨C7_sentinel_frames.2.1 pullupInit 0 zeroFrame (by norm_num [zeroFrame])
      (by norm_num [zeroFrame]) (by norm_num [zeroFrame]) (by norm_num [zeroFrame]),
   C7_sentinel_frames.2.2.2.2.2.1 pushupInit zeroFrame (by norm_num [zeroFrame])
      (by norm_num [zeroFrame]) (by norm_num [zeroFrame]) (by norm_num [zeroFrame])
      (by norm_num [zeroFrame]) (by norm_num [zeroFrame])⟩

end AIWorkout
